import Mathlib

/-!
Shallow embedding of the session manager of `ethers-web` (`src/lib.rs`,
`src/walletconnect/mod.rs`, `src/event.rs`) and proofs about its
connection state machine, event ordering, persistence gating and the
WalletConnect request routing.

Modelling conventions:
* Ethereum addresses are opaque identifiers, modelled as `Nat`.
* `u64` / `U256` machine integers are `Nat` with explicit reductions
  (`low_u64 x = x % 2^64`) where the code truncates.
* The tokio mpsc channel between the session manager and its caller is a
  FIFO `List Event`: `send` appends at the back, `recv` pops the front.
* External collaborators (the browser bridge, the WalletConnect relay
  client, HTTP) are parameters: the availability probe and the results of
  the blocking RPC round-trips of a handshake arrive in small environment
  records, and the relay client is a record of the state the session
  manager reads (`chain_id`, per-chain granted accounts, the supported
  method set).
* Rust methods on `&mut self` that can fail return `Ethereum × Except e Unit`:
  the state component is the final state even on the error path, mirroring
  that an early `?` return keeps every field already assigned.
-/

namespace EthersWeb

/-- Ethereum account addresses, opaque for the session manager. -/
abbrev Address := Nat

/-- Truncation of a 256-bit value to its low 64 bits, as `U256::low_u64`. -/
def low_u64 (x : Nat) : Nat := x % 2 ^ 64

/-- The error enum `EthereumError` of `src/lib.rs`. The `transparent`
wrapper variants carry their inner error as an opaque numeric code. -/
inductive EthereumError where
  | Unavailable
  | NotConnected
  | AlreadyConnected
  | ConversionError (code : Nat)
  | ProviderError (code : Nat)
  | SignatureError (code : Nat)
  | HexError (code : Nat)
  | Eip1193Error (code : Nat)
  | WalletConnectError (code : Nat)
  | WalletConnectClientError (code : Nat)
  | ReqwestError (code : Nat)
deriving DecidableEq

/-- The enum `WalletType` of `src/lib.rs`. -/
inductive WalletType where
  | Injected
  | WalletConnect
deriving DecidableEq

/-- The event enum `Event` of `src/lib.rs`. -/
inductive Event where
  | ConnectionWaiting (url : String)
  | Connected
  | Disconnected
  | Broken
  | ChainIdChanged (id : Option Nat)
  | AccountsChanged (accounts : Option (List Address))
deriving DecidableEq

/-- `Event::is_connection_established` (`src/lib.rs` lines 255-265):
`!matches!(self, ConnectionWaiting(_) | Disconnected | ChainIdChanged(None)
| AccountsChanged(None))`. -/
def Event.is_connection_established : Event → Bool
  | .ConnectionWaiting _ => false
  | .Disconnected => false
  | .ChainIdChanged none => false
  | .AccountsChanged none => false
  | _ => true

/-- State of the external WalletConnect relay client (`walletconnect_client::WalletConnect`)
as read by this repository: the active chain id, the per-chain account
grants behind `get_accounts_for_chain_id`, and the set of RPC methods the
relay session supports natively. -/
structure WalletConnectClient where
  chainId : Nat
  granted : List (Nat × List Address)
  supportedMethods : List String
deriving DecidableEq

/-- `client.get_accounts_for_chain_id(chain_id)`: the accounts granted for
a chain, `none` when the chain was never granted. -/
def WalletConnectClient.get_accounts_for_chain_id
    (c : WalletConnectClient) (chain_id : Nat) : Option (List Address) :=
  (c.granted.find? (fun p => p.fst == chain_id)).map (·.snd)

/-- The struct `WalletConnectProvider` of `src/walletconnect/mod.rs`: a
relay client plus the optional fallback HTTP provider built from the
configured RPC url (`provider = some ()` when an endpoint was configured
and parsed by `Http::from_str`). -/
structure WalletConnectProvider where
  client : WalletConnectClient
  provider : Option Unit
deriving DecidableEq

/-- `WalletConnectProvider::chain_id`. -/
def WalletConnectProvider.chain_id (p : WalletConnectProvider) : Nat :=
  p.client.chainId

/-- `WalletConnectProvider::set_chain_id`. -/
def WalletConnectProvider.set_chain_id
    (p : WalletConnectProvider) (chain_id : Nat) : WalletConnectProvider :=
  { p with client := { p.client with chainId := chain_id } }

/-- `WalletConnectProvider::accounts_for_chain`. -/
def WalletConnectProvider.accounts_for_chain
    (p : WalletConnectProvider) (chain_id : Nat) : Option (List Address) :=
  p.client.get_accounts_for_chain_id chain_id

/-- `WalletConnectProvider::accounts`: accounts for the currently set chain. -/
def WalletConnectProvider.accounts (p : WalletConnectProvider) : Option (List Address) :=
  p.accounts_for_chain p.client.chainId

/-- `WalletConnectProvider::get_state`: the resumable relay-session blob,
modelled as the client state itself. -/
def WalletConnectProvider.get_state (p : WalletConnectProvider) : WalletConnectClient :=
  p.client

/-- `WalletConnectProvider::supports_method`, delegated to the relay client. -/
def WalletConnectProvider.supports_method (p : WalletConnectProvider) (m : String) : Bool :=
  p.client.supportedMethods.contains m

/-- The error enum of `src/walletconnect/error.rs`. Wrapper variants carry
an opaque code. -/
inductive WcError where
  | MissingProvider
  | SerdeJsonError (code : Nat)
  | WalletConnectError (code : Nat)
  | HttpClientError (code : Nat)
  | SignatureError (code : Nat)
  | HexError (code : Nat)
  | CommsError
deriving DecidableEq

instance instDecEqExcept {ε α : Type} [DecidableEq ε] [DecidableEq α] :
    DecidableEq (Except ε α) := fun x y => by
  cases x with
  | error a =>
    cases y with
    | error b => exact decidable_of_iff (a = b) ⟨fun h => by rw [h], fun h => by injection h⟩
    | ok b => exact isFalse (fun h => Except.noConfusion h)
  | ok a =>
    cases y with
    | error b => exact isFalse (fun h => Except.noConfusion h)
    | ok b => exact decidable_of_iff (a = b) ⟨fun h => by rw [h], fun h => by injection h⟩

/-- Environment for one `WalletConnectProvider::request` call: the decoded
outcome of the relay round-trip (oneshot receive plus `from_value`) and
the outcome of the fallback HTTP JSON-RPC call, were they performed.
Response payloads are opaque (`Nat`). -/
structure WcRequestEnv where
  relayResult : Except WcError Nat
  httpResult : Except WcError Nat
deriving DecidableEq

/-- `WalletConnectProvider::request` (`src/walletconnect/mod.rs` lines 37-61):
relay dispatch when the session supports the method natively, otherwise
the fallback HTTP provider when one exists, otherwise `MissingProvider`. -/
def WalletConnectProvider.request
    (p : WalletConnectProvider) (m : String) (env : WcRequestEnv) : Except WcError Nat :=
  if p.supports_method m then
    env.relayResult
  else
    match p.provider with
    | some _ => env.httpResult
    | none => Except.error WcError.MissingProvider

/-- The enum `WebProvider` of `src/lib.rs`. `Eip1193` is a fieldless
handle, so `Injected` carries nothing. -/
inductive WebProvider where
  | None
  | Injected
  | WalletConnect (p : WalletConnectProvider)
deriving DecidableEq

/-- The `PartialEq` impl for `WebProvider` (`src/lib.rs` lines 226-235):
equality compares the variant tag only. -/
def WebProvider.sameTag : WebProvider → WebProvider → Bool
  | .None, .None => true
  | .Injected, .Injected => true
  | .WalletConnect _, .WalletConnect _ => true
  | _, _ => false

/-- `WebProvider::is_some`: `!matches!(self, Self::None)`. -/
def WebProvider.is_some : WebProvider → Bool
  | .None => false
  | _ => true

/-- The struct `EthereumState` of `src/lib.rs`, persisted to local
storage; the WalletConnect resumable blob is the relay client state. -/
structure EthereumState where
  chain_id : Option Nat
  wc_state : Option WalletConnectClient
deriving DecidableEq

/-- The session manager struct `Ethereum` of `src/lib.rs`, restricted to
the state the claims touch. `events` is the mpsc channel content, front
is the receive end. -/
structure Ethereum where
  wc_project_id : Option String
  rpc_node : Option String
  accounts : Option (List Address)
  chain_id : Option Nat
  wallet : WebProvider
  events : List Event
deriving DecidableEq

/-- `Ethereum::new` (`src/lib.rs` lines 316-337): empty channel, no
wallet, no accounts, the configured default chain id. -/
def Ethereum.new (chain_id : Nat) (wc_project_id rpc_node : Option String) : Ethereum :=
  { wc_project_id := wc_project_id
    rpc_node := rpc_node
    accounts := none
    chain_id := some chain_id
    wallet := WebProvider.None
    events := [] }

/-- `Ethereum::has_provider`. -/
def Ethereum.has_provider (s : Ethereum) : Bool :=
  s.wallet.is_some

/-- `Ethereum::walletconnect_available`: a relay project id is configured. -/
def Ethereum.walletconnect_available (s : Ethereum) : Bool :=
  s.wc_project_id.isSome

/-- `Ethereum::disconnect` (`src/lib.rs` lines 420-429): tears down a
WalletConnect relay session (external effect), sets the wallet to `None`,
clears `accounts`, and sends the single event `Disconnected`. `chain_id`
is not touched. -/
def Ethereum.disconnect (s : Ethereum) : Ethereum :=
  { s with wallet := WebProvider.None
           accounts := none
           events := s.events ++ [Event.Disconnected] }

/-- Environment for one `Ethereum::connect_injected` call: the result of
the `Eip1193::is_available` host probe, and the outcomes of the two
blocking RPC round-trips `eth_requestAccounts` and `eth_chainId` (the
latter a `U256` value, truncated by the caller with `low_u64`). -/
structure InjectedEnv where
  available : Bool
  accountsResult : Except EthereumError (List Address)
  chainIdResult : Except EthereumError Nat
deriving DecidableEq

/-- `Ethereum::connect_injected` (`src/lib.rs` lines 431-504). The three
native listeners registered with `.on` are modelled separately as
`Ethereum.onInjectedChainChanged` and `Ethereum.onInjectedAccountsChanged`;
registration itself pushes nothing. Note the wallet field is assigned
before the two fetches, so a fetch failure leaves it set. -/
def Ethereum.connect_injected (s : Ethereum) (env : InjectedEnv) :
    Ethereum × Except EthereumError Unit :=
  if env.available = false then
    (s, Except.error EthereumError.Unavailable)
  else
    let s1 := { s with wallet := WebProvider.Injected }
    match env.accountsResult with
    | Except.error e => (s1, Except.error e)
    | Except.ok accs =>
      let s2 := { s1 with accounts := some accs }
      match env.chainIdResult with
      | Except.error e => (s2, Except.error e)
      | Except.ok cid =>
        let s3 := { s2 with chain_id := some (low_u64 cid) }
        let s4 := { s3 with events := s3.events ++ [Event.Connected] }
        let s5 :=
          if s4.chain_id.isSome then
            { s4 with events := s4.events ++ [Event.ChainIdChanged s4.chain_id] }
          else s4
        let s6 :=
          if s5.accounts.isSome then
            { s5 with events := s5.events ++ [Event.AccountsChanged s5.accounts] }
          else s5
        (s6, Except.ok ())

/-- Environment for one `Ethereum::connect_wc` call: the outcome of
`WalletConnect::connect` and of `initiate_session` (the pairing url,
empty when a restored session resumed without pairing). -/
structure WcEnv where
  connectResult : Except EthereumError WalletConnectClient
  initiateResult : Except EthereumError String
deriving DecidableEq

/-- `Ethereum::connect_wc` (`src/lib.rs` lines 574-606). The
`WalletConnectProvider::new` url parse is modelled as succeeding whenever
an RPC endpoint is configured. -/
def Ethereum.connect_wc (s : Ethereum) (env : WcEnv) :
    Ethereum × Except EthereumError Unit :=
  if s.walletconnect_available = false then
    (s, Except.error EthereumError.Unavailable)
  else
    match env.connectResult with
    | Except.error e => (s, Except.error e)
    | Except.ok client =>
      match env.initiateResult with
      | Except.error e => (s, Except.error e)
      | Except.ok url =>
        let p : WalletConnectProvider :=
          { client := client, provider := s.rpc_node.map (fun _ => ()) }
        let s1 := { s with wallet := WebProvider.WalletConnect p }
        if url ≠ "" then
          ({ s1 with events := s1.events ++ [Event.ConnectionWaiting url] }, Except.ok ())
        else
          ({ s1 with events :=
              s1.events ++ [Event.Connected, Event.ChainIdChanged s1.chain_id,
                Event.AccountsChanged s1.accounts] }, Except.ok ())

/-- `Ethereum::connect` (`src/lib.rs` lines 408-417): reject with
`AlreadyConnected` unless the wallet tag-equals `WebProvider::None`, then
delegate to the selected handshake. -/
def Ethereum.connect (s : Ethereum) (wallet : WalletType)
    (ienv : InjectedEnv) (wenv : WcEnv) : Ethereum × Except EthereumError Unit :=
  if s.wallet.sameTag WebProvider.None = false then
    (s, Except.error EthereumError.AlreadyConnected)
  else
    match wallet with
    | WalletType.Injected => s.connect_injected ienv
    | WalletType.WalletConnect => s.connect_wc wenv

/-- `Ethereum::switch_network` (`src/lib.rs` lines 554-572). -/
def Ethereum.switch_network (s : Ethereum) (chain_id : Nat) :
    Ethereum × Except EthereumError Unit :=
  match s.wallet with
  | WebProvider.WalletConnect p =>
    match p.accounts_for_chain chain_id with
    | some accounts =>
      if accounts.isEmpty = false then
        ({ s with accounts := some accounts
                  chain_id := some chain_id
                  wallet := WebProvider.WalletConnect (p.set_chain_id chain_id)
                  events := s.events ++ [Event.ChainIdChanged (some chain_id),
                    Event.AccountsChanged (some accounts)] }, Except.ok ())
      else
        (s, Except.error EthereumError.Unavailable)
    | none => (s, Except.error EthereumError.Unavailable)
  | _ => (s, Except.error EthereumError.Unavailable)

/-- `Ethereum::collect_state` (`src/lib.rs` lines 644-651). -/
def Ethereum.collect_state (s : Ethereum) : EthereumState :=
  match s.wallet with
  | WebProvider.WalletConnect p =>
    { chain_id := some p.chain_id, wc_state := some p.get_state }
  | _ => { chain_id := s.chain_id, wc_state := none }

/-- Effect of `Ethereum::next` on the persisted local-storage entry under
`STATUS_KEY`: either `LocalStorage::delete` or `LocalStorage::set` with a
snapshot. -/
inductive StorageAction where
  | delete
  | write (st : EthereumState)
deriving DecidableEq

/-- The post-drain section of `Ethereum::next` (`src/lib.rs` lines
519-533), applied to a drained event `e`: when `e == Connected` and the
wallet is WalletConnect, send `ChainIdChanged(Some(chain_id))` then
`AccountsChanged(accounts)` read from the provider; then persist the
collected state when `e.is_connection_established()`, else delete it. -/
def Ethereum.handleDrained (s : Ethereum) (e : Event) : Ethereum × StorageAction :=
  let s1 :=
    if e = Event.Connected then
      match s.wallet with
      | WebProvider.WalletConnect p =>
        { s with events := s.events ++ [Event.ChainIdChanged (some p.chain_id),
            Event.AccountsChanged p.accounts] }
      | _ => s
    else s
  if e.is_connection_established then
    (s1, StorageAction.write s1.collect_state)
  else
    (s1, StorageAction.delete)

/-- `Ethereum::next` (`src/lib.rs` lines 507-536), channel arm: drain the
front of the channel (an empty channel suspends, modelled as no action and
no event) and run the post-drain section. The WalletConnect select arm
feeds `handleDrained` with a relay event instead; the claims quantify over
the drained event, so both arms share `handleDrained`. -/
def Ethereum.next (s : Ethereum) : Ethereum × Option StorageAction × Option Event :=
  match s.events with
  | [] => (s, none, none)
  | e :: rest =>
    let s0 := { s with events := rest }
    let r := s0.handleDrained e
    (r.fst, some r.snd, some e)

/-- Hex digit test on the ASCII code of a character. -/
def isHexDigitChar (c : Char) : Bool :=
  (48 ≤ c.toNat && c.toNat ≤ 57) ||
  (97 ≤ c.toNat && c.toNat ≤ 102) ||
  (65 ≤ c.toNat && c.toNat ≤ 70)

/-- Numeric value of a hex digit (0 on non-digits, which the parser
rejects beforehand). -/
def hexDigitVal (c : Char) : Nat :=
  if 48 ≤ c.toNat ∧ c.toNat ≤ 57 then c.toNat - 48
  else if 97 ≤ c.toNat ∧ c.toNat ≤ 102 then c.toNat - 87
  else if 65 ≤ c.toNat ∧ c.toNat ≤ 70 then c.toNat - 55
  else 0

/-- Value of a big-endian hex digit string. -/
def hexListVal (ds : List Char) : Nat :=
  ds.foldl (fun acc c => 16 * acc + hexDigitVal c) 0

/-- The `into_serde::<U256>()` decode applied to a chainChanged payload:
the wire value is a 0x-prefixed hex string of at most 64 hex digits (a
256-bit unsigned integer); anything else fails to decode. -/
def parseU256Hex (s : String) : Option Nat :=
  match s.data with
  | '0' :: 'x' :: ds =>
    if ds ≠ [] ∧ ds.length ≤ 64 ∧ ds.all isHexDigitChar then
      some (hexListVal ds)
    else none
  | _ => none

/-- The chainChanged listener registered by `Ethereum::connect_injected`
(`src/lib.rs` lines 450-465): sends one event
`ChainIdChanged(chain_id.into_serde::<U256>().ok().map(|c| c.low_u64()))`.
A failed decode becomes `none` via `.ok()`; a successful decode is
truncated to its low 64 bits. No error value exists on this path. -/
def Ethereum.onInjectedChainChanged (s : Ethereum) (payload : String) : Ethereum :=
  { s with events :=
      s.events ++ [Event.ChainIdChanged ((parseU256Hex payload).map low_u64)] }

/-- The accountsChanged listener registered by `Ethereum::connect_injected`
(`src/lib.rs` lines 466-490): sends `AccountsChanged(accounts)` with the
decoded list (or `none` on a failed decode), then a second event:
`Disconnected` when the list is empty or failed to decode, `Connected`
otherwise. -/
def Ethereum.onInjectedAccountsChanged (s : Ethereum)
    (parsed : Option (List Address)) : Ethereum :=
  { s with events :=
      s.events ++ [Event.AccountsChanged parsed] ++
        (match parsed with
          | some acc => [if acc.isEmpty then Event.Disconnected else Event.Connected]
          | none => [Event.Disconnected]) }

/-- The disconnect listener registered by `Ethereum::connect_injected`
(`src/lib.rs` lines 438-449): sends a single `Disconnected`. -/
def Ethereum.onInjectedDisconnect (s : Ethereum) : Ethereum :=
  { s with events := s.events ++ [Event.Disconnected] }

/-! Concrete fixtures used by witnesses and counterexamples. -/

/-- A session currently connected to an injected wallet, with a cached
snapshot. -/
def sessInj : Ethereum :=
  { wc_project_id := none
    rpc_node := none
    accounts := some [1]
    chain_id := some 5
    wallet := WebProvider.Injected
    events := [] }

/-- A freshly built session (default chain 5, relay project configured). -/
def sessNew : Ethereum := Ethereum.new 5 (some "pid") none

/-- Handshake environment for a fully successful injected connect. -/
def ienv0 : InjectedEnv :=
  { available := true, accountsResult := Except.ok [1], chainIdResult := Except.ok 1 }

/-- Handshake environment whose account fetch fails after the probe
succeeded. -/
def ienvFail : InjectedEnv :=
  { available := true
    accountsResult := Except.error (EthereumError.Eip1193Error 0)
    chainIdResult := Except.ok 1 }

/-- A relay client granting one account on chain 1 and supporting typed
data signing natively. -/
def wcClient0 : WalletConnectClient :=
  { chainId := 1, granted := [(1, [7])], supportedMethods := ["eth_signTypedData_v4"] }

/-- Environment for a WalletConnect handshake that resumes instantly. -/
def wenv0 : WcEnv := { connectResult := Except.ok wcClient0, initiateResult := Except.ok "" }

/-- A WalletConnect provider with a fallback HTTP endpoint. -/
def wcProv0 : WalletConnectProvider := { client := wcClient0, provider := some () }

/-- A WalletConnect provider without a fallback HTTP endpoint. -/
def wcProvNoHttp : WalletConnectProvider := { client := wcClient0, provider := none }

/-- A session on a WalletConnect backend with one drained-ready
`Connected` event in the channel. -/
def sessWc : Ethereum :=
  { wc_project_id := some "pid"
    rpc_node := some "node"
    accounts := some [7]
    chain_id := some 1
    wallet := WebProvider.WalletConnect wcProv0
    events := [Event.Connected] }

/-- An injected-backend session with one `Broken` event queued. -/
def sessDrain : Ethereum := { sessInj with events := [Event.Broken] }

/-- The WalletConnect session with an empty event channel. -/
def sessWcIdle : Ethereum := { sessWc with events := [] }

/-! Claim C1. -/

/-- Claim C1 counterexample: on a session with an active injected backend
and cached chain id 5, `disconnect` does not unset the cached chain id
and does not push the triple `ChainIdChanged(None)`, `AccountsChanged(None)`,
`Disconnected` the claim demands (it pushes a single `Disconnected`). -/
theorem C1_counterexample :
    sessInj.wallet.is_some = true ∧
    ¬ (sessInj.disconnect.chain_id = none ∧
       sessInj.disconnect.events =
         sessInj.events ++ [Event.ChainIdChanged none, Event.AccountsChanged none,
           Event.Disconnected]) := by decide

/-- Claim C1, amended: for every session with an active backend,
`disconnect()` sets the backend to `None`, unsets the cached accounts,
keeps the cached chain id unchanged, and pushes exactly one event,
`Disconnected`, onto the event channel. -/
theorem C1_disconnect_behavior (s : Ethereum) (h : s.wallet.is_some = true) :
    s.disconnect.wallet = WebProvider.None ∧
    s.disconnect.accounts = none ∧
    s.disconnect.chain_id = s.chain_id ∧
    s.disconnect.events = s.events ++ [Event.Disconnected] := by
  simp [Ethereum.disconnect]

/-- Claim C1 witness: the amended disconnect behavior at the concrete
injected session. -/
theorem C1_witness :
    sessInj.disconnect.wallet = WebProvider.None ∧
    sessInj.disconnect.accounts = none ∧
    sessInj.disconnect.chain_id = sessInj.chain_id ∧
    sessInj.disconnect.events = sessInj.events ++ [Event.Disconnected] :=
  C1_disconnect_behavior sessInj (by decide)

/-! Claim C2. -/

/-- Claim C2: for every wallet kind, calling `connect` while the backend
is not `None` returns `AlreadyConnected` and returns the session state
completely unchanged. -/
theorem C2_connect_already_connected (s : Ethereum) (w : WalletType)
    (ienv : InjectedEnv) (wenv : WcEnv) (h : s.wallet ≠ WebProvider.None) :
    s.connect w ienv wenv = (s, Except.error EthereumError.AlreadyConnected) := by
  have hf : s.wallet.sameTag WebProvider.None = false := by
    cases hw : s.wallet with
    | None => exact absurd hw h
    | Injected => rfl
    | WalletConnect p => rfl
  simp [Ethereum.connect, hf]

/-- Claim C2 witness: a second connect attempt (WalletConnect kind) on the
already-connected injected session fails with `AlreadyConnected` and
leaves the state untouched. -/
theorem C2_witness :
    sessInj.connect WalletType.WalletConnect ienv0 wenv0 =
      (sessInj, Except.error EthereumError.AlreadyConnected) :=
  C2_connect_already_connected sessInj WalletType.WalletConnect ienv0 wenv0 (by decide)

/-! Claim C3. -/

/-- Claim C3: for every drained event returned by `next()`, the persisted
state is written with the current snapshot exactly when the event's
`is_connection_established()` is true and deleted otherwise, and the
predicate is false exactly on `ConnectionWaiting`, `Disconnected`,
`ChainIdChanged(None)` and `AccountsChanged(None)`. -/
theorem C3_next_persistence (s : Ethereum) (e : Event) (rest : List Event)
    (h : s.events = e :: rest) :
    s.next.snd.snd = some e ∧
    (s.next.snd.fst = some (StorageAction.write s.next.fst.collect_state) ↔
      e.is_connection_established = true) ∧
    (s.next.snd.fst = some StorageAction.delete ↔ e.is_connection_established = false) ∧
    (e.is_connection_established = false ↔
      (e = Event.Disconnected ∨ e = Event.ChainIdChanged none ∨
       e = Event.AccountsChanged none ∨ ∃ u, e = Event.ConnectionWaiting u)) := by
  refine ⟨?_, ?_, ?_, ?_⟩
  · simp [Ethereum.next, h]
  · cases he : e.is_connection_established with
    | true => simp [Ethereum.next, h, Ethereum.handleDrained, he]
    | false => simp [Ethereum.next, h, Ethereum.handleDrained, he]
  · cases he : e.is_connection_established with
    | true => simp [Ethereum.next, h, Ethereum.handleDrained, he]
    | false => simp [Ethereum.next, h, Ethereum.handleDrained, he]
  · cases e with
    | ConnectionWaiting u => simp [Event.is_connection_established]
    | Connected => simp [Event.is_connection_established]
    | Disconnected => simp [Event.is_connection_established]
    | Broken => simp [Event.is_connection_established]
    | ChainIdChanged o => cases o <;> simp [Event.is_connection_established]
    | AccountsChanged o => cases o <;> simp [Event.is_connection_established]

/-- Claim C3 witness: draining the queued `Broken` event from the
concrete injected session persists the snapshot (the predicate holds). -/
theorem C3_witness :
    sessDrain.next.snd.snd = some Event.Broken ∧
    (sessDrain.next.snd.fst = some (StorageAction.write sessDrain.next.fst.collect_state) ↔
      Event.Broken.is_connection_established = true) ∧
    (sessDrain.next.snd.fst = some StorageAction.delete ↔
      Event.Broken.is_connection_established = false) ∧
    (Event.Broken.is_connection_established = false ↔
      (Event.Broken = Event.Disconnected ∨ Event.Broken = Event.ChainIdChanged none ∨
       Event.Broken = Event.AccountsChanged none ∨
       ∃ u, Event.Broken = Event.ConnectionWaiting u)) :=
  C3_next_persistence sessDrain Event.Broken [] rfl

/-! Claim C4. -/

/-- Claim C4 counterexample: an account-fetch failure after a successful
availability probe propagates the adapter error unchanged but leaves the
backend as `Injected`, not `None` as the claim states. -/
theorem C4_counterexample :
    (sessNew.connect WalletType.Injected ienvFail wenv0).snd =
      Except.error (EthereumError.Eip1193Error 0) ∧
    (sessNew.connect WalletType.Injected ienvFail wenv0).fst.wallet ≠ WebProvider.None := by
  decide

/-- Claim C4, amended: a failing `connect(Injected)` handshake propagates
the adapter error unchanged and emits no events; the backend is left as
`None` when the availability probe fails, but remains `Injected` when the
account or chain-id fetch fails after the probe succeeded (the accounts
snapshot keeps the value assigned up to the point of failure). -/
theorem C4_connect_failure (s : Ethereum) (env : InjectedEnv) (wenv : WcEnv)
    (e : EthereumError) (h0 : s.wallet = WebProvider.None) :
    (env.available = false →
      s.connect WalletType.Injected env wenv =
        (s, Except.error EthereumError.Unavailable)) ∧
    (env.available = true → env.accountsResult = Except.error e →
      s.connect WalletType.Injected env wenv =
        ({ s with wallet := WebProvider.Injected }, Except.error e)) ∧
    (∀ accs, env.available = true → env.accountsResult = Except.ok accs →
      env.chainIdResult = Except.error e →
      s.connect WalletType.Injected env wenv =
        ({ s with wallet := WebProvider.Injected, accounts := some accs },
          Except.error e)) := by
  refine ⟨?_, ?_, ?_⟩ <;> intros <;>
    simp [Ethereum.connect, h0, WebProvider.sameTag, Ethereum.connect_injected, *]

/-- Claim C4 witness: the amended behavior at the concrete failing
handshake: the `Eip1193Error` is returned unchanged, no event is pushed,
and the wallet field holds `Injected`. -/
theorem C4_witness :
    sessNew.connect WalletType.Injected ienvFail wenv0 =
      ({ sessNew with wallet := WebProvider.Injected },
        Except.error (EthereumError.Eip1193Error 0)) :=
  (C4_connect_failure sessNew ienvFail wenv0 (EthereumError.Eip1193Error 0) rfl).2.1 rfl rfl

/-! Claim C5. -/

/-- Claim C5: every successful `connect(Injected)` pushes exactly, in
order, `Connected`, `ChainIdChanged(Some(id))`, `AccountsChanged(Some(accounts))`
onto the channel, with the id and accounts fetched during the handshake
(the chain id truncated to u64). -/
theorem C5_connect_injected_events (s : Ethereum) (ienv : InjectedEnv) (wenv : WcEnv)
    (accs : List Address) (cid : Nat)
    (h0 : s.wallet = WebProvider.None)
    (h1 : ienv.available = true)
    (h2 : ienv.accountsResult = Except.ok accs)
    (h3 : ienv.chainIdResult = Except.ok cid) :
    s.connect WalletType.Injected ienv wenv =
      ({ s with
          wallet := WebProvider.Injected
          accounts := some accs
          chain_id := some (low_u64 cid)
          events := s.events ++ [Event.Connected,
            Event.ChainIdChanged (some (low_u64 cid)),
            Event.AccountsChanged (some accs)] },
       Except.ok ()) := by
  simp [Ethereum.connect, h0, WebProvider.sameTag, Ethereum.connect_injected, h1, h2, h3]

/-- Claim C5 witness: the successful injected connect on the fresh
session pushes the `Connected`, `ChainIdChanged`, `AccountsChanged`
triple in order. -/
theorem C5_witness :
    sessNew.connect WalletType.Injected ienv0 wenv0 =
      ({ sessNew with
          wallet := WebProvider.Injected
          accounts := some [1]
          chain_id := some (low_u64 1)
          events := sessNew.events ++ [Event.Connected,
            Event.ChainIdChanged (some (low_u64 1)),
            Event.AccountsChanged (some [1])] },
       Except.ok ()) :=
  C5_connect_injected_events sessNew ienv0 wenv0 [1] 1 rfl rfl rfl rfl

/-! Claim C10. -/

/-- Claim C10: when `next()` drains a `Connected` event while the backend
is WalletConnect, it pushes exactly `ChainIdChanged(Some(provider.chain_id))`
then `AccountsChanged(provider.accounts)` back into the channel before
returning; draining any other event, or draining on any other backend,
pushes nothing. -/
theorem C10_next_wc_followups (s : Ethereum) (e : Event) (rest : List Event)
    (h : s.events = e :: rest) :
    (∀ p, s.wallet = WebProvider.WalletConnect p → e = Event.Connected →
      s.next.fst.events =
        rest ++ [Event.ChainIdChanged (some p.chain_id), Event.AccountsChanged p.accounts]) ∧
    (e ≠ Event.Connected → s.next.fst.events = rest) ∧
    (s.wallet = WebProvider.None ∨ s.wallet = WebProvider.Injected →
      s.next.fst.events = rest) := by
  refine ⟨?_, ?_, ?_⟩
  · intro p hp he
    subst he
    cases hc : Event.Connected.is_connection_established <;>
      simp [Ethereum.next, h, Ethereum.handleDrained, hp, hc]
  · intro hne
    cases hc : e.is_connection_established <;>
      simp [Ethereum.next, h, Ethereum.handleDrained, hne, hc]
  · intro hw
    by_cases he : e = Event.Connected
    · subst he
      rcases hw with hw | hw <;>
        simp [Ethereum.next, h, Ethereum.handleDrained, hw] <;> split <;> rfl
    · rcases hw with hw | hw <;>
        simp [Ethereum.next, h, Ethereum.handleDrained, he, hw] <;> split <;> rfl

/-- Claim C10 witness: draining `Connected` on the concrete WalletConnect
session pushes the chain-id and accounts follow-ups read from the
provider. -/
theorem C10_witness :
    sessWc.next.fst.events =
      [Event.ChainIdChanged (some 1), Event.AccountsChanged (some [7])] := by
  have h := (C10_next_wc_followups sessWc Event.Connected [] rfl).1 wcProv0 rfl rfl
  rw [h]
  decide

/-! Claim C6. -/

/-- Claim C6: for every session, an injected accountsChanged notification
decoding to an empty account list pushes `AccountsChanged(Some([]))`
followed by a separate `Disconnected` event, in that order, onto the
channel, never merged or swapped. -/
theorem C6_empty_accounts_events (s : Ethereum) :
    (s.onInjectedAccountsChanged (some [])).events =
      s.events ++ [Event.AccountsChanged (some []), Event.Disconnected] := by
  simp [Ethereum.onInjectedAccountsChanged]

/-! Claim C7. -/

/-- Claim C7: `switch_network` fails with `Unavailable` and leaves the
state unchanged when the backend is not WalletConnect or the target chain
has no (or only an empty list of) granted accounts; on success it updates
accounts and chain id and emits `ChainIdChanged(Some(chain_id))` then
`AccountsChanged(Some(accounts))`, in that order. -/
theorem C7_switch_network (s : Ethereum) (cid : Nat) :
    ((s.wallet = WebProvider.None ∨ s.wallet = WebProvider.Injected) →
      s.switch_network cid = (s, Except.error EthereumError.Unavailable)) ∧
    (∀ p, s.wallet = WebProvider.WalletConnect p →
      (p.accounts_for_chain cid = none ∨ p.accounts_for_chain cid = some []) →
      s.switch_network cid = (s, Except.error EthereumError.Unavailable)) ∧
    (∀ p accs, s.wallet = WebProvider.WalletConnect p →
      p.accounts_for_chain cid = some accs → accs ≠ [] →
      s.switch_network cid =
        ({ s with
            accounts := some accs
            chain_id := some cid
            wallet := WebProvider.WalletConnect (p.set_chain_id cid)
            events := s.events ++ [Event.ChainIdChanged (some cid),
              Event.AccountsChanged (some accs)] },
          Except.ok ())) := by
  refine ⟨?_, ?_, ?_⟩
  · intro hw
    rcases hw with hw | hw <;> simp [Ethereum.switch_network, hw]
  · intro p hp hacc
    rcases hacc with hacc | hacc <;> simp [Ethereum.switch_network, hp, hacc]
  · intro p accs hp hacc hne
    have hemp : accs.isEmpty = false := by
      cases accs with
      | nil => exact absurd rfl hne
      | cons a t => rfl
    simp [Ethereum.switch_network, hp, hacc, hemp]

/-- Claim C7 witness: switching the concrete WalletConnect session to
chain 1, which has the granted account 7, succeeds and pushes the two
events in order. -/
theorem C7_witness :
    sessWcIdle.switch_network 1 =
      ({ sessWcIdle with
          accounts := some [7]
          chain_id := some 1
          wallet := WebProvider.WalletConnect (wcProv0.set_chain_id 1)
          events := sessWcIdle.events ++ [Event.ChainIdChanged (some 1),
            Event.AccountsChanged (some [7])] },
        Except.ok ()) :=
  (C7_switch_network sessWcIdle 1).2.2 wcProv0 [7] rfl (by decide) (by decide)

/-! Claim C8. -/

/-- Hex digits denote values below 16. -/
theorem hexDigitVal_lt (c : Char) : hexDigitVal c < 16 := by
  unfold hexDigitVal
  split_ifs with h1 h2 h3 <;> omega

/-- The hex fold from any accumulator stays below `(acc + 1) * 16 ^ len`. -/
theorem hexFold_lt (ds : List Char) (acc : Nat) :
    ds.foldl (fun a c => 16 * a + hexDigitVal c) acc < (acc + 1) * 16 ^ ds.length := by
  induction ds generalizing acc with
  | nil => simp
  | cons c ds ih =>
    have hc := hexDigitVal_lt c
    have h1 := ih (16 * acc + hexDigitVal c)
    have h2 : (16 * acc + hexDigitVal c + 1) * 16 ^ ds.length ≤
        (acc + 1) * 16 ^ (ds.length + 1) := by
      have hle : 16 * acc + hexDigitVal c + 1 ≤ (acc + 1) * 16 := by omega
      calc (16 * acc + hexDigitVal c + 1) * 16 ^ ds.length
          ≤ ((acc + 1) * 16) * 16 ^ ds.length := Nat.mul_le_mul_right _ hle
        _ = (acc + 1) * 16 ^ (ds.length + 1) := by ring
    simpa [List.foldl] using lt_of_lt_of_le h1 h2

/-- A hex digit string of at most 64 digits denotes a value below `2 ^ 256`. -/
theorem hexListVal_lt_of_len (ds : List Char) (h : ds.length ≤ 64) :
    hexListVal ds < 2 ^ 256 := by
  have h1 : hexListVal ds < (0 + 1) * 16 ^ ds.length := hexFold_lt ds 0
  have h2 : (0 + 1) * 16 ^ ds.length ≤ 16 ^ 64 := by
    simpa using Nat.pow_le_pow_right (by norm_num) h
  have h3 : (16 : Nat) ^ 64 = 2 ^ 256 := by
    rw [show (16 : Nat) = 2 ^ 4 from by norm_num, ← pow_mul]
  omega

/-- Every successfully decoded chainChanged payload is a 256-bit value. -/
theorem parseU256Hex_lt (s : String) (v : Nat) (h : parseU256Hex s = some v) :
    v < 2 ^ 256 := by
  unfold parseU256Hex at h
  split at h
  · split at h
    · rename_i ds heq hcond
      injection h with h
      exact h ▸ hexListVal_lt_of_len ds hcond.2.1
    · exact Option.noConfusion h
  · exact Option.noConfusion h

/-- Claim C8 counterexample: the chainChanged listener silently defaults
instead of surfacing a `ConversionError`: the 65-bit value `2 ^ 64`
(payload `0x10000000000000000`) is truncated to `ChainIdChanged(Some(0))`,
and a malformed payload becomes `ChainIdChanged(None)`; no error is
raised on either input. -/
theorem C8_counterexample :
    ((Ethereum.new 1 none none).onInjectedChainChanged "0x10000000000000000").events =
        [Event.ChainIdChanged (some 0)] ∧
    ((Ethereum.new 1 none none).onInjectedChainChanged "zz").events =
        [Event.ChainIdChanged none] := by decide

/-- Claim C8, amended: the chainChanged payload is decoded as a
256-bit hex integer and the event carries its low 64 bits (values at or
above `2 ^ 64` are silently truncated); a payload that is malformed hex
(or exceeds 256 bits) yields `ChainIdChanged(None)`; no `ConversionError`
is surfaced on this path. -/
theorem C8_chain_changed_behavior (s : Ethereum) (payload : String) :
    (∀ v, parseU256Hex payload = some v →
      v < 2 ^ 256 ∧
      (s.onInjectedChainChanged payload).events =
        s.events ++ [Event.ChainIdChanged (some (v % 2 ^ 64))]) ∧
    (parseU256Hex payload = none →
      (s.onInjectedChainChanged payload).events =
        s.events ++ [Event.ChainIdChanged none]) := by
  constructor
  · intro v hv
    exact ⟨parseU256Hex_lt payload v hv,
      by simp [Ethereum.onInjectedChainChanged, hv, low_u64]⟩
  · intro hv
    simp [Ethereum.onInjectedChainChanged, hv]

/-- Claim C8 witness: the amended truncation behavior at the overflowing
concrete payload `0x10000000000000000`. -/
theorem C8_witness :
    (2 : Nat) ^ 64 < 2 ^ 256 ∧
    (sessInj.onInjectedChainChanged "0x10000000000000000").events =
      sessInj.events ++ [Event.ChainIdChanged (some (2 ^ 64 % 2 ^ 64))] :=
  (C8_chain_changed_behavior sessInj "0x10000000000000000").1 (2 ^ 64) (by decide)

/-! Claim C9. -/

/-- Claim C9: `WalletConnectProvider::request` dispatches over the relay
when the session supports the method natively, otherwise over the
fallback HTTP provider when one was configured, and otherwise fails with
`MissingProvider`. -/
theorem C9_wc_request_routing (p : WalletConnectProvider) (m : String)
    (env : WcRequestEnv) :
    (p.supports_method m = true → p.request m env = env.relayResult) ∧
    (p.supports_method m = false → ∀ u, p.provider = some u →
      p.request m env = env.httpResult) ∧
    (p.supports_method m = false → p.provider = none →
      p.request m env = Except.error WcError.MissingProvider) := by
  refine ⟨?_, ?_, ?_⟩
  · intro h
    simp [WalletConnectProvider.request, h]
  · intro h u hu
    simp [WalletConnectProvider.request, h, hu]
  · intro h hn
    simp [WalletConnectProvider.request, h, hn]

/-- Claim C9 witness: an unsupported method on a provider without a
fallback endpoint fails with `MissingProvider`. -/
theorem C9_witness :
    wcProvNoHttp.request "eth_getBalance"
        { relayResult := Except.ok 0, httpResult := Except.ok 0 } =
      Except.error WcError.MissingProvider :=
  (C9_wc_request_routing wcProvNoHttp "eth_getBalance"
      { relayResult := Except.ok 0, httpResult := Except.ok 0 }).2.2 (by decide) rfl

end EthersWeb
